import Mathlib

/-!
Shallow embedding of the p001-stream-server sources (main.py, main_my4.py,
server3.py, server4.py).  The four files are iterations of one design: a
`VideoStreamServer` that reads frames from a cv2 capture, encodes them as
JPEG, and sends them over a websocket, adapting quality to a shared
`is_selected` flag updated by `handle_message`.

Modelling conventions:
* JSON values parsed by `json.loads` are modelled by `JVal`; a parsed
  object is an association list `JDict` (first binding wins, matching a
  Python dict where keys are unique).  A message whose parse fails, or
  whose top-level value is not an object, is modelled as `none`.
* Python truthiness of a stored JSON value is `truthy`.
* The opaque cv2 image primitives (denoise, sharpen, resize, JPEG
  encoding) are modelled as a free algebra `ProcImage` recording exactly
  which operations the code applied, plus the `EncodeParams` literals
  passed to `cv2.imencode`.
* The asyncio concurrency model: code between two `await` points runs
  atomically; the consumer (`handle_message`) can only interleave at an
  `await`.  Each `await` in the producer loop therefore carries an
  environment slot (`selDuringSend`, `selDuringSleep`, ...) giving the
  value the shared flag holds after that suspension point (or `none`
  when no concurrent write happened there).
* Observable side effects (log records with their level, sleeps with
  their duration in milliseconds, sent messages, calls to `reconnect`)
  are collected in an `Event` trace.
-/

namespace StreamServer

/-- JSON values as produced by json.loads, restricted to the shapes the
handlers inspect. -/
inductive JVal where
  | jstr (s : String)
  | jbool (b : Bool)
  | jnum (n : Int)
  | jnull
deriving DecidableEq, Repr

/-- A parsed JSON object: association list from keys to values. -/
abbrev JDict := List (String × JVal)

/-- Python dict.get with no default: first binding for the key, if any. -/
def dictGet (d : JDict) (k : String) : Option JVal :=
  match d with
  | [] => none
  | (k2, v) :: rest => if k2 = k then some v else dictGet rest k

/-- Python dict.get with a default value. -/
def dictGetD (d : JDict) (k : String) (dflt : JVal) : JVal :=
  (dictGet d k).getD dflt

/-- Python truthiness of a JSON value. -/
def truthy : JVal → Bool
  | .jstr s => s ≠ ""
  | .jbool b => b
  | .jnum n => n ≠ 0
  | .jnull => false

/-- Log levels used by the logging module in the sources. -/
inductive LogLevel where
  | debug
  | info
  | warning
  | error
deriving DecidableEq, Repr

/-- cv2 resize interpolation modes used by the sources.  `linearDefault`
is the default used when no interpolation argument is passed. -/
inductive Interp where
  | linearDefault
  | area
  | lanczos4
deriving DecidableEq, Repr

/-- A processed image: the raw frame (identified by an opaque id) with
the cv2 operations the code applied to it, recorded structurally. -/
inductive ProcImage where
  | raw (f : Nat)
  | denoise (i : ProcImage)
  | sharpen (i : ProcImage)
  | resize (i : ProcImage) (w h : Nat) (ip : Interp)
deriving DecidableEq, Repr

/-- The literal parameters passed to cv2.imencode: JPEG quality, and the
presence of the IMWRITE_JPEG_OPTIMIZE and IMWRITE_JPEG_PROGRESSIVE
flags. -/
structure EncodeParams where
  quality : Nat
  optimize : Bool
  progressive : Bool
deriving DecidableEq, Repr

/-- The JPEG buffer produced by cv2.imencode, identified by its input
image and encode parameters. -/
structure EncodedJpeg where
  image : ProcImage
  params : EncodeParams
deriving DecidableEq, Repr

/-- The outbound stream message built in the producer loop:
type, server_id, base64 jpeg data, and the is_selected field (the raw
Python value stored in the attribute). -/
structure StreamMsg where
  server_id : String
  data : EncodedJpeg
  is_selected : JVal
deriving DecidableEq, Repr

/-- Observable side effects of the loops. -/
inductive Event where
  | log (lvl : LogLevel) (tag : String)
  | sleepMs (ms : Nat)
  | sent (m : StreamMsg)
  | reconnectCall
deriving DecidableEq, Repr

/-- The mutable fields of VideoStreamServer that the message handler and
producer loop share: the immutable server_id and the is_selected
attribute.  is_selected holds a raw Python value (initially False; the
handler stores data.get of the selected field verbatim). -/
structure ServerState where
  server_id : String
  is_selected : JVal
deriving DecidableEq, Repr

/-- server4.py handle_message (lines 46-54): on a parsed object of type
select, store data.get of selected (default False) into is_selected,
with no check of the server_id field; on a parse failure log an error. -/
def handleMessage4 (st : ServerState) (msg : Option JDict) :
    ServerState × List Event :=
  match msg with
  | none => (st, [.log .error "error_handling_message"])
  | some data =>
    if dictGet data "type" = some (.jstr "select") then
      ({ st with is_selected := dictGetD data "selected" (.jbool false) },
       [.log .info "stream_selection_changed"])
    else (st, [])

/-- server3.py handle_message (lines 104-111): same as server4 but the
update additionally requires the server_id field of the message to be
present and equal to this session's server_id. -/
def handleMessage3 (st : ServerState) (msg : Option JDict) :
    ServerState × List Event :=
  match msg with
  | none => (st, [.log .error "error_handling_message"])
  | some data =>
    if dictGet data "type" = some (.jstr "select")
        ∧ dictGet data "server_id" = some (.jstr st.server_id) then
      ({ st with is_selected := dictGetD data "selected" (.jbool false) },
       [.log .info "stream_selection_changed"])
    else (st, [])

/-- Outcome of the awaited websocket send call: success, raising
websockets ConnectionClosed, or raising some other transport error. -/
inductive SendRes where
  | ok
  | closed
  | err
deriving DecidableEq, Repr

/-- Environment of one producer-loop iteration: the outcome of each
external call, and the value the shared is_selected flag holds after
each await suspension point when the consumer interleaved there. -/
structure IterEnv where
  readRet : Option Nat
  debugLogDue : Bool
  hqFails : Bool
  encodeRaises : Bool
  sendRes : SendRes
  selDuringSend : Option JVal
  selDuringSleep : Option JVal
  selDuringErrSleep : Option JVal
deriving DecidableEq, Repr

/-- Result of one producer-loop iteration: the shared state afterwards,
the running flag afterwards, and the trace of observable effects. -/
structure IterOut where
  state : ServerState
  running : Bool
  events : List Event
deriving DecidableEq, Repr

/-- server4.py process_high_quality_frame (lines 29-44): denoise, then
sharpen, then Lanczos resize to 320x240; if any of these raises, log an
error and fall back to a plain INTER_AREA resize of the input frame to
320x240.  Returns the produced image and the log trace. -/
def process_high_quality_frame (hqFails : Bool) (frame : ProcImage) :
    ProcImage × List Event :=
  if hqFails then
    (.resize frame 320 240 .area, [.log .error "error_processing_high_quality_frame"])
  else
    (.resize (.sharpen (.denoise frame)) 320 240 .lanczos4, [])

/-- One iteration of server4.py stream_video's while-running body
(lines 60-107).  The body is atomic except at its awaits (the websocket
send, the pacing sleep, and the 1-second error sleep), where the
environment may overwrite the shared is_selected attribute.  The body
never writes the running flag and never breaks out of the loop: every
exception is caught by the blanket except clause, which logs and sleeps
1 second. -/
def streamIter4 (st : ServerState) (running : Bool) (env : IterEnv) : IterOut :=
  match env.readRet with
  | none =>
    -- ret is False: log a warning and continue immediately.
    ⟨st, running, [.log .warning "failed_to_read_frame"]⟩
  | some f =>
    let dbg : List Event :=
      if env.debugLogDue then [.log .debug "frame_captured"] else []
    let frame : ProcImage := .raw f
    let thumbnail : ProcImage := .resize frame 80 60 .area
    -- Tier choice reads self.is_selected; no await since the read of the
    -- frame, so this is the flag value at the start of the encode step.
    let hq := process_high_quality_frame env.hqFails frame
    let img : ProcImage := if truthy st.is_selected then hq.1 else thumbnail
    let params : EncodeParams :=
      if truthy st.is_selected then ⟨98, true, true⟩ else ⟨85, true, false⟩
    let hqEvts : List Event := if truthy st.is_selected then hq.2 else []
    if env.encodeRaises then
      let st2 : ServerState :=
        { st with is_selected := env.selDuringErrSleep.getD st.is_selected }
      ⟨st2, running,
        dbg ++ hqEvts ++ [.log .error "error_during_streaming", .sleepMs 1000]⟩
    else
      -- The message re-reads self.is_selected; still no await since the
      -- tier choice, so it reads the same shared state.
      let msg : StreamMsg := ⟨st.server_id, ⟨img, params⟩, st.is_selected⟩
      -- await self.relay_ws.send: the consumer may run here.
      let st2 : ServerState :=
        { st with is_selected := env.selDuringSend.getD st.is_selected }
      match env.sendRes with
      | .closed =>
        let st3 : ServerState :=
          { st2 with is_selected := env.selDuringErrSleep.getD st2.is_selected }
        ⟨st3, running,
          dbg ++ hqEvts ++ [.log .error "error_during_streaming", .sleepMs 1000]⟩
      | .err =>
        let st3 : ServerState :=
          { st2 with is_selected := env.selDuringErrSleep.getD st2.is_selected }
        ⟨st3, running,
          dbg ++ hqEvts ++ [.log .error "error_during_streaming", .sleepMs 1000]⟩
      | .ok =>
        -- Pacing re-reads self.is_selected after the send await.
        let pace : Nat := if truthy st2.is_selected then 33 else 100
        -- await asyncio.sleep: the consumer may run here too.
        let st3 : ServerState :=
          { st2 with is_selected := env.selDuringSleep.getD st2.is_selected }
        ⟨st3, running, dbg ++ hqEvts ++ [.sent msg, .sleepMs pace]⟩

/-- One iteration of server3.py's streaming while-True body inside
start_server (lines 53-98).  Differences from server4: a failed read
continues silently with no log; the thumbnail is 160x120 and the
selected tier is a plain resize to 640x480 (no enhancement), encoded at
quality 90 / 75 with no optimize or progressive flags; ConnectionClosed
has its own handler which logs and then awaits self.reconnect, while
other exceptions log and sleep 1 second.  The loop has no running
flag. -/
def streamIter3 (st : ServerState) (env : IterEnv) : ServerState × List Event :=
  match env.readRet with
  | none => (st, [])
  | some f =>
    let dbg : List Event :=
      if env.debugLogDue then [.log .debug "frame_captured"] else []
    let frame : ProcImage := .raw f
    let thumbnail : ProcImage := .resize frame 160 120 .linearDefault
    let img : ProcImage :=
      if truthy st.is_selected then .resize frame 640 480 .linearDefault
      else thumbnail
    let params : EncodeParams :=
      if truthy st.is_selected then ⟨90, false, false⟩ else ⟨75, false, false⟩
    if env.encodeRaises then
      let st2 : ServerState :=
        { st with is_selected := env.selDuringErrSleep.getD st.is_selected }
      (st2, dbg ++ [.log .error "error_during_streaming", .sleepMs 1000])
    else
      let msg : StreamMsg := ⟨st.server_id, ⟨img, params⟩, st.is_selected⟩
      let st2 : ServerState :=
        { st with is_selected := env.selDuringSend.getD st.is_selected }
      match env.sendRes with
      | .closed =>
        (st2, dbg ++ [.log .error "websocket_connection_closed", .reconnectCall])
      | .err =>
        let st3 : ServerState :=
          { st2 with is_selected := env.selDuringErrSleep.getD st2.is_selected }
        (st3, dbg ++ [.log .error "error_during_streaming", .sleepMs 1000])
      | .ok =>
        let pace : Nat := if truthy st2.is_selected then 33 else 100
        let st3 : ServerState :=
          { st2 with is_selected := env.selDuringSleep.getD st2.is_selected }
        (st3, dbg ++ [.sent msg, .sleepMs pace])

/-- A file-backed cv2.VideoCapture as used by main_my4.py: the decoded
frame sequence of the file and the current read position
(CAP_PROP_POS_FRAMES). -/
structure FileCap where
  frames : List Nat
  pos : Nat
deriving DecidableEq, Repr

/-- cv2.VideoCapture.read on a file-backed capture: at a valid position
return (True, frame) and advance; past the end return (False, None). -/
def capRead (c : FileCap) : Option Nat × FileCap :=
  match c.frames.get? c.pos with
  | some f => (some f, ⟨c.frames, c.pos + 1⟩)
  | none => (none, c)

/-- cv2.VideoCapture.set with CAP_PROP_POS_FRAMES: move the read
position. -/
def capSetPosFrames (c : FileCap) (n : Nat) : FileCap := ⟨c.frames, n⟩

/-- The read step at the top of main_my4.py's streaming loop (lines
59-63): read a frame; when ret is False, log that the end of the video
was reached, seek back to frame 0, and continue (returning no frame for
this iteration). -/
def readStepMy4 (c : FileCap) : Option Nat × FileCap × List Event :=
  match capRead c with
  | (none, c1) => (none, capSetPosFrames c1 0, [.log .info "end_of_video_restarting"])
  | (some f, c1) => (some f, c1, [])

/-- Environment of one start_server attempt in server4.py: whether the
websocket connect raises, whether sending the register message raises,
and whether the camera fails to open. -/
structure StartEnv where
  connectFails : Bool
  registerFails : Bool
  cameraFails : Bool
deriving DecidableEq, Repr

/-- How one start_server call ends, as seen by its caller. -/
inductive StartOutcome where
  | raised
  | returnedNormally
  | streaming
deriving DecidableEq, Repr

/-- server4.py start_server (lines 109-149) up to entering the streaming
phase.  A connect or register failure is caught by the outer except
clause, which logs and re-raises; a camera-open failure logs an error
and returns normally; otherwise the attempt reaches the streaming phase
(modelled as opaque here). -/
def start_server4 (env : StartEnv) : StartOutcome × List Event :=
  if env.connectFails then
    (.raised, [.log .info "starting_server", .log .error "failed_to_connect_to_relay"])
  else if env.registerFails then
    (.raised, [.log .info "starting_server", .log .info "connected_to_relay",
               .log .error "failed_to_connect_to_relay"])
  else if env.cameraFails then
    (.returnedNormally,
     [.log .info "starting_server", .log .info "connected_to_relay",
      .log .info "registered", .log .error "failed_to_open_camera"])
  else
    (.streaming,
     [.log .info "starting_server", .log .info "connected_to_relay",
      .log .info "registered"])

/-- One pass of server4.py's main supervisor loop (lines 168-178): await
start_server; if it raises (other than KeyboardInterrupt) log the error
and sleep 5 seconds before the next attempt; if it returns normally the
loop proceeds to the next attempt immediately with no sleep.  Returns
the trace and the delay in milliseconds before the next start_server
call (none when the attempt reached the streaming phase, which is
outside this model). -/
def mainLoopStep4 (env : StartEnv) : List Event × Option Nat :=
  match start_server4 env with
  | (.raised, evts) => (evts ++ [.log .error "server_error", .sleepMs 5000], some 5000)
  | (.returnedNormally, evts) => (evts, some 0)
  | (.streaming, evts) => (evts, none)

/-- Sample selected-session state for concrete evaluations. -/
def exSt : ServerState := ⟨"s", .jbool true⟩

/-- Sample unselected-session state for concrete evaluations. -/
def exStU : ServerState := ⟨"u", .jbool false⟩

/-- Sample iteration environment: read succeeds, no failures, send ok. -/
def exEnvOk : IterEnv := ⟨some 5, false, false, false, .ok, none, none, none⟩

/-- Sample iteration environment: enhancement pipeline raises. -/
def exEnvHq : IterEnv := ⟨some 5, false, true, false, .ok, none, none, none⟩

/-- Sample iteration environment: send raises ConnectionClosed. -/
def exEnvClosed : IterEnv := ⟨some 5, false, false, false, .closed, none, none, none⟩

/-- Sample iteration environment: send raises a non-closed error. -/
def exEnvErr : IterEnv := ⟨some 5, false, false, false, .err, none, none, none⟩

/-- Sample iteration environment: the frame read returns no frame. -/
def exEnvReadFail : IterEnv := ⟨none, false, false, false, .ok, none, none, none⟩

/-- Sample file capture positioned past its last frame. -/
def exCap : FileCap := ⟨[7, 8], 2⟩

/-- True of log events at warning level. -/
def isWarningLog : Event → Bool
  | .log .warning _ => true
  | _ => false

/-- True of sleep events. -/
def isSleepEvent : Event → Bool
  | .sleepMs _ => true
  | _ => false

/-- Appending a two-element block to a trace makes its second element the
last event. -/
theorem eventsLast (l : List Event) (a b : Event) :
    (l ++ [a, b]).getLast? = some b := by
  rw [List.getLast?_append_of_ne_nil _ (by simp)]
  rfl

/-- C1 counterexample: in server4's handle_message a selection message
whose server_id field is present and differs from this session's id is
not a no-op — the flag is still overwritten.  Here the session id is "a",
the message targets "b", and the flag changes from False to True. -/
theorem C1_counterexample :
    dictGet [("type", JVal.jstr "select"), ("server_id", JVal.jstr "b"),
             ("selected", JVal.jbool true)] "server_id" ≠ some (.jstr "a")
    ∧ (handleMessage4 ⟨"a", .jbool false⟩
        (some [("type", JVal.jstr "select"), ("server_id", JVal.jstr "b"),
               ("selected", JVal.jbool true)])).1.is_selected ≠ .jbool false := by
  constructor
  · decide
  · decide

/-- C1 amended: server4's handle_message applies the new value to every
parsed message of type select, ignoring any server_id field; server3's
handle_message applies it exactly when the message's server_id field is
present and equal to this session's id (an absent target id is a no-op
there). -/
theorem C1_amended (st : ServerState) (d : JDict) :
    ((handleMessage4 st (some d)).1.is_selected =
      if dictGet d "type" = some (.jstr "select")
      then dictGetD d "selected" (.jbool false) else st.is_selected)
    ∧ ((handleMessage3 st (some d)).1.is_selected =
      if dictGet d "type" = some (.jstr "select")
          ∧ dictGet d "server_id" = some (.jstr st.server_id)
      then dictGetD d "selected" (.jbool false) else st.is_selected) := by
  constructor
  · simp only [handleMessage4]
    split <;> rfl
  · simp only [handleMessage3]
    split <;> rfl

/-- C10: a parsed message of type select with no selected field sets the
flag to False (Python dict.get default), in server4 unconditionally and
in server3 when the message's server_id matches. -/
theorem C10_missing_selected_sets_false (st : ServerState) (d : JDict)
    (htype : dictGet d "type" = some (.jstr "select"))
    (hsel : dictGet d "selected" = none) :
    (handleMessage4 st (some d)).1.is_selected = .jbool false
    ∧ (dictGet d "server_id" = some (.jstr st.server_id) →
        (handleMessage3 st (some d)).1.is_selected = .jbool false) := by
  constructor
  · simp [handleMessage4, dictGetD, htype, hsel]
  · intro hid
    simp [handleMessage3, dictGetD, htype, hsel, hid]

/-- C10 witness: concrete select message with a matching id and no
selected field resets an initially-True flag to False in both
handlers. -/
theorem C10_witness :
    dictGet [("type", JVal.jstr "select"), ("server_id", JVal.jstr "s")] "type"
        = some (.jstr "select")
    ∧ dictGet [("type", JVal.jstr "select"), ("server_id", JVal.jstr "s")] "selected"
        = none
    ∧ (handleMessage4 exSt
        (some [("type", JVal.jstr "select"), ("server_id", JVal.jstr "s")])).1.is_selected
        = .jbool false
    ∧ (handleMessage3 exSt
        (some [("type", JVal.jstr "select"), ("server_id", JVal.jstr "s")])).1.is_selected
        = .jbool false := by
  refine ⟨by decide, by decide, ?_, ?_⟩
  · exact (C10_missing_selected_sets_false exSt _ (by decide) (by decide)).1
  · exact (C10_missing_selected_sets_false exSt _ (by decide) (by decide)).2 (by decide)

/-- C3: every stream message sent by a server4 producer iteration
reports in is_selected exactly the shared flag value that was in effect
when the frame's encode step began (the iteration's starting state: no
await separates the tier read from the message build), and the encode
parameters of its payload are the tier matching that same value — the
payload tier and the reported flag never disagree, whatever the
consumer writes at the awaits. -/
theorem C3_no_tearing (st : ServerState) (running : Bool) (env : IterEnv)
    (m : StreamMsg) (hm : Event.sent m ∈ (streamIter4 st running env).events) :
    m.is_selected = st.is_selected
    ∧ m.data.params =
        (if truthy st.is_selected then (⟨98, true, true⟩ : EncodeParams)
         else ⟨85, true, false⟩) := by
  obtain ⟨rr, dl, hq, er, sr, s1, s2, s3⟩ := env
  cases rr <;> cases dl <;> cases hq <;> cases er <;> cases sr <;>
    cases h : truthy st.is_selected <;>
    simp_all [streamIter4, process_high_quality_frame]

/-- C3 witness: a concrete selected iteration sends a message whose flag
is the starting flag value and whose payload is the selected tier. -/
theorem C3_witness :
    Event.sent ⟨"s", ⟨.resize (.sharpen (.denoise (.raw 5))) 320 240 .lanczos4,
        ⟨98, true, true⟩⟩, .jbool true⟩ ∈ (streamIter4 exSt true exEnvOk).events
    ∧ ((⟨"s", ⟨.resize (.sharpen (.denoise (.raw 5))) 320 240 .lanczos4,
        ⟨98, true, true⟩⟩, .jbool true⟩ : StreamMsg).is_selected = exSt.is_selected
      ∧ (⟨"s", ⟨.resize (.sharpen (.denoise (.raw 5))) 320 240 .lanczos4,
        ⟨98, true, true⟩⟩, .jbool true⟩ : StreamMsg).data.params =
          (if truthy exSt.is_selected then (⟨98, true, true⟩ : EncodeParams)
           else ⟨85, true, false⟩)) :=
  ⟨by decide, C3_no_tearing exSt true exEnvOk _ (by decide)⟩

/-- C4: in server4's producer, when the enhancement pipeline does not
raise, every message sent from a selected iteration carries the frame
denoised, sharpened and Lanczos-resized to 320x240, encoded at JPEG
quality 98 with both the optimize and progressive flags; every message
sent from an unselected iteration carries the plain INTER_AREA 80x60
thumbnail encoded at quality 85 with the optimize flag only — no
enhancement, no progressive flag. -/
theorem C4_tier_pipeline (st : ServerState) (running : Bool) (env : IterEnv)
    (f : Nat) (m : StreamMsg)
    (hf : env.readRet = some f) (hhq : env.hqFails = false)
    (hm : Event.sent m ∈ (streamIter4 st running env).events) :
    (truthy st.is_selected = true →
      m.data.image = .resize (.sharpen (.denoise (.raw f))) 320 240 .lanczos4
      ∧ m.data.params = ⟨98, true, true⟩)
    ∧ (truthy st.is_selected = false →
      m.data.image = .resize (.raw f) 80 60 .area
      ∧ m.data.params = ⟨85, true, false⟩) := by
  obtain ⟨rr, dl, hq, er, sr, s1, s2, s3⟩ := env
  cases rr <;> cases dl <;> cases hq <;> cases er <;> cases sr <;>
    cases h : truthy st.is_selected <;>
    simp_all [streamIter4, process_high_quality_frame]

/-- C4 witness: concrete selected and unselected iterations send the
selected-tier and thumbnail-tier payloads respectively. -/
theorem C4_witness :
    exEnvOk.readRet = some 5 ∧ exEnvOk.hqFails = false
    ∧ truthy exSt.is_selected = true
    ∧ ((⟨"s", ⟨.resize (.sharpen (.denoise (.raw 5))) 320 240 .lanczos4,
          ⟨98, true, true⟩⟩, .jbool true⟩ : StreamMsg).data.image
        = .resize (.sharpen (.denoise (.raw 5))) 320 240 .lanczos4
      ∧ (⟨"s", ⟨.resize (.sharpen (.denoise (.raw 5))) 320 240 .lanczos4,
          ⟨98, true, true⟩⟩, .jbool true⟩ : StreamMsg).data.params
        = ⟨98, true, true⟩) :=
  ⟨by decide, by decide, by decide,
    (C4_tier_pipeline exSt true exEnvOk 5 _ (by decide) (by decide) (by decide)).1
      (by decide)⟩

/-- C5 counterexample: when the enhancement pipeline raises in a
selected server4 iteration, the record logged is at error level, and no
warning-level record appears anywhere in the iteration trace — the
claim's stated warning is never logged. -/
theorem C5_counterexample :
    Event.log .error "error_processing_high_quality_frame"
        ∈ (streamIter4 exSt true exEnvHq).events
    ∧ (streamIter4 exSt true exEnvHq).events.filter isWarningLog = [] := by
  constructor
  · decide
  · decide

/-- C5 amended: if the enhancement pipeline raises during selected-tier
processing the failure is absorbed — an error (not a warning) is logged
and a plain resize-only path at the same 320x240 target resolution is
used instead, so the iteration still sends a valid frame and no
exception propagates out of process_high_quality_frame. -/
theorem C5_amended (st : ServerState) (running : Bool) (env : IterEnv) (f : Nat)
    (hsel : truthy st.is_selected = true) (hhq : env.hqFails = true)
    (hf : env.readRet = some f) (henc : env.encodeRaises = false)
    (hsend : env.sendRes = .ok) :
    Event.log .error "error_processing_high_quality_frame"
        ∈ (streamIter4 st running env).events
    ∧ Event.sent ⟨st.server_id, ⟨.resize (.raw f) 320 240 .area, ⟨98, true, true⟩⟩,
        st.is_selected⟩ ∈ (streamIter4 st running env).events := by
  obtain ⟨rr, dl, hq, er, sr, s1, s2, s3⟩ := env
  cases rr <;> cases dl <;> cases hq <;> cases er <;> cases sr <;>
    simp_all [streamIter4, process_high_quality_frame]

/-- C5 witness: a concrete selected iteration with a failing pipeline
logs the error and still sends the resize-only 320x240 frame. -/
theorem C5_witness :
    truthy exSt.is_selected = true ∧ exEnvHq.hqFails = true
    ∧ exEnvHq.readRet = some 5 ∧ exEnvHq.encodeRaises = false
    ∧ exEnvHq.sendRes = .ok
    ∧ Event.log .error "error_processing_high_quality_frame"
        ∈ (streamIter4 exSt true exEnvHq).events
    ∧ Event.sent ⟨exSt.server_id, ⟨.resize (.raw 5) 320 240 .area, ⟨98, true, true⟩⟩,
        exSt.is_selected⟩ ∈ (streamIter4 exSt true exEnvHq).events := by
  refine ⟨by decide, by decide, by decide, by decide, by decide, ?_, ?_⟩
  · exact (C5_amended exSt true exEnvHq 5 (by decide) (by decide) (by decide)
      (by decide) (by decide)).1
  · exact (C5_amended exSt true exEnvHq 5 (by decide) (by decide) (by decide)
      (by decide) (by decide)).2

/-- C6: in main_my4's file-backed loop, when a read signals end of
stream the step seeks the capture back to frame 0, so the next read
returns the first frame of the file rather than failing. -/
theorem C6_file_loop_restarts (c : FileCap)
    (hend : (capRead c).1 = none) (hne : c.frames ≠ []) :
    ((readStepMy4 c).2.1).pos = 0
    ∧ (capRead (readStepMy4 c).2.1).1 = c.frames.head?
    ∧ c.frames.head? ≠ none := by
  have hget : c.frames.get? c.pos = none := by
    cases hx : c.frames.get? c.pos with
    | none => rfl
    | some f =>
      rw [capRead, hx] at hend
      exact absurd hend (by simp)
  have hstep : readStepMy4 c =
      (none, capSetPosFrames c 0, [.log .info "end_of_video_restarting"]) := by
    rw [readStepMy4, capRead, hget]
  have hzero : ∀ l : List Nat, l.get? 0 = l.head? := by
    intro l
    cases l <;> rfl
  refine ⟨by rw [hstep]; rfl, ?_, ?_⟩
  · rw [hstep]
    show (capRead ⟨c.frames, 0⟩).1 = c.frames.head?
    rw [capRead, hzero c.frames]
    cases hh : c.frames.head? <;> rfl
  · cases hl : c.frames with
    | nil => exact absurd hl hne
    | cons a t => simp

/-- C6 witness: a two-frame file read past its end restarts at frame 7,
its first frame. -/
theorem C6_witness :
    (capRead exCap).1 = none ∧ exCap.frames ≠ []
    ∧ ((readStepMy4 exCap).2.1).pos = 0
    ∧ (capRead (readStepMy4 exCap).2.1).1 = exCap.frames.head?
    ∧ exCap.frames.head? ≠ none :=
  ⟨by decide, by decide,
    (C6_file_loop_restarts exCap (by decide) (by decide)).1,
    (C6_file_loop_restarts exCap (by decide) (by decide)).2.1,
    (C6_file_loop_restarts exCap (by decide) (by decide)).2.2⟩

/-- C7: in every server4 and server3 producer iteration that reads,
encodes and sends successfully, the pacing delay that ends the
iteration is 33 ms when the shared selected flag (as read at the pacing
point, after the send await) is truthy and 100 ms when it is not. -/
theorem C7_pacing (st : ServerState) (running : Bool) (env : IterEnv) (f : Nat)
    (hf : env.readRet = some f) (henc : env.encodeRaises = false)
    (hsend : env.sendRes = .ok) :
    (streamIter4 st running env).events.getLast? =
      some (.sleepMs (if truthy (env.selDuringSend.getD st.is_selected)
                      then 33 else 100))
    ∧ (streamIter3 st env).2.getLast? =
      some (.sleepMs (if truthy (env.selDuringSend.getD st.is_selected)
                      then 33 else 100)) := by
  obtain ⟨rr, dl, hq, er, sr, s1, s2, s3⟩ := env
  cases rr <;> cases er <;> cases sr <;> simp_all [streamIter4, streamIter3]

/-- C7 witness: a concrete selected iteration ends with the 33 ms
pacing sleep and a concrete unselected one with the 100 ms sleep, in
both server4 and server3. -/
theorem C7_witness :
    exEnvOk.readRet = some 5 ∧ exEnvOk.encodeRaises = false
    ∧ exEnvOk.sendRes = .ok
    ∧ ((streamIter4 exSt true exEnvOk).events.getLast? =
        some (.sleepMs (if truthy (exEnvOk.selDuringSend.getD exSt.is_selected)
                        then 33 else 100))
      ∧ (streamIter3 exSt exEnvOk).2.getLast? =
        some (.sleepMs (if truthy (exEnvOk.selDuringSend.getD exSt.is_selected)
                        then 33 else 100)))
    ∧ ((streamIter4 exStU true exEnvOk).events.getLast? =
        some (.sleepMs (if truthy (exEnvOk.selDuringSend.getD exStU.is_selected)
                        then 33 else 100))
      ∧ (streamIter3 exStU exEnvOk).2.getLast? =
        some (.sleepMs (if truthy (exEnvOk.selDuringSend.getD exStU.is_selected)
                        then 33 else 100))) :=
  ⟨by decide, by decide, by decide,
    C7_pacing exSt true exEnvOk 5 (by decide) (by decide) (by decide),
    C7_pacing exStU true exEnvOk 5 (by decide) (by decide) (by decide)⟩

/-- C8 counterexample: a server4 iteration whose frame read returns no
frame produces only a warning log — in particular no sleep of any
duration, so there is no fixed 1-second delay before the loop
continues. -/
theorem C8_counterexample :
    (streamIter4 exStU true exEnvReadFail).events
        = [.log .warning "failed_to_read_frame"]
    ∧ (streamIter4 exStU true exEnvReadFail).events.filter isSleepEvent = [] := by
  constructor
  · decide
  · decide

/-- C8 amended: a server4 producer failure raised as an exception — an
encode failure or a send failure — is logged at error level and
followed by a fixed 1-second sleep, after which the loop continues with
the running flag unchanged; but a frame read failure (read returning no
frame) is only logged as a warning and the loop continues immediately
with no delay. -/
theorem C8_amended (st : ServerState) (running : Bool) (env : IterEnv) (f : Nat) :
    (env.readRet = some f →
      env.encodeRaises = true ∨ env.sendRes = .err →
      (streamIter4 st running env).events.getLast? = some (.sleepMs 1000)
      ∧ Event.log .error "error_during_streaming"
          ∈ (streamIter4 st running env).events
      ∧ (streamIter4 st running env).running = running)
    ∧ (env.readRet = none →
      (streamIter4 st running env).events = [.log .warning "failed_to_read_frame"]
      ∧ (streamIter4 st running env).running = running) := by
  obtain ⟨rr, dl, hq, er, sr, s1, s2, s3⟩ := env
  constructor
  · intro hf hcase
    cases rr <;> cases er <;> cases sr <;>
      rcases hcase with h | h <;>
      simp_all [streamIter4, process_high_quality_frame]
  · intro hf
    cases rr <;> simp_all [streamIter4]

/-- C8 witness: a concrete send-error iteration ends with the 1-second
sleep and keeps running; a concrete failed-read iteration emits only
the warning. -/
theorem C8_witness :
    exEnvErr.readRet = some 5 ∧ exEnvErr.sendRes = .err
    ∧ ((streamIter4 exStU true exEnvErr).events.getLast? = some (.sleepMs 1000)
      ∧ Event.log .error "error_during_streaming"
          ∈ (streamIter4 exStU true exEnvErr).events
      ∧ (streamIter4 exStU true exEnvErr).running = true)
    ∧ exEnvReadFail.readRet = none
    ∧ ((streamIter4 exStU true exEnvReadFail).events
          = [.log .warning "failed_to_read_frame"]
      ∧ (streamIter4 exStU true exEnvReadFail).running = true) :=
  ⟨by decide, by decide,
    (C8_amended exStU true exEnvErr 5).1 (by decide) (Or.inr (by decide)),
    by decide,
    (C8_amended exStU true exEnvReadFail 5).2 (by decide)⟩

/-- C2 counterexample: in server4 a ConnectionClosed raised by the send
is caught by the blanket exception handler — the running flag stays
true and the iteration ends with the 1-second error sleep instead of
exiting; and in server3 the streaming loop reacts to ConnectionClosed
by calling reconnect itself. -/
theorem C2_counterexample :
    (streamIter4 exStU true exEnvClosed).running = true
    ∧ (streamIter4 exStU true exEnvClosed).events.getLast? = some (.sleepMs 1000)
    ∧ Event.reconnectCall ∈ (streamIter3 exStU exEnvClosed).2 := by
  refine ⟨by decide, by decide, by decide⟩

/-- C2 amended: when the send raises ConnectionClosed in server4's
stream_video the blanket handler logs an error and sleeps 1 second and
the loop continues with the running flag unchanged and no reconnection
from the producer (running is set false, and reconnection driven, by
the receive loop in start_server instead); in server3 and main.py the
streaming loop itself calls reconnect on ConnectionClosed. -/
theorem C2_amended (st : ServerState) (running : Bool) (env : IterEnv) (f : Nat)
    (hf : env.readRet = some f) (henc : env.encodeRaises = false)
    (hsend : env.sendRes = .closed) :
    (streamIter4 st running env).running = running
    ∧ (streamIter4 st running env).events.getLast? = some (.sleepMs 1000)
    ∧ Event.reconnectCall ∉ (streamIter4 st running env).events
    ∧ Event.reconnectCall ∈ (streamIter3 st env).2 := by
  obtain ⟨rr, dl, hq, er, sr, s1, s2, s3⟩ := env
  cases rr <;> cases er <;> cases sr <;> cases dl <;>
    cases h : truthy st.is_selected <;> cases hq <;>
    simp_all [streamIter4, streamIter3, process_high_quality_frame]

/-- C2 witness: concrete ConnectionClosed iteration keeps running true,
sleeps 1 second, does not reconnect in server4, and reconnects in
server3. -/
theorem C2_witness :
    exEnvClosed.readRet = some 5 ∧ exEnvClosed.encodeRaises = false
    ∧ exEnvClosed.sendRes = .closed
    ∧ ((streamIter4 exSt true exEnvClosed).running = true
      ∧ (streamIter4 exSt true exEnvClosed).events.getLast? = some (.sleepMs 1000)
      ∧ Event.reconnectCall ∉ (streamIter4 exSt true exEnvClosed).events
      ∧ Event.reconnectCall ∈ (streamIter3 exSt exEnvClosed).2) :=
  ⟨by decide, by decide, by decide,
    C2_amended exSt true exEnvClosed 5 (by decide) (by decide) (by decide)⟩

/-- C9 counterexample: when the camera fails to open after a successful
connect and register, server4's start_server returns normally, so the
supervisor loop's next attempt begins immediately — the delay before
restart is 0 and no sleep event occurs, not the claimed fixed 5-second
delay. -/
theorem C9_counterexample :
    (start_server4 ⟨false, false, true⟩).1 = .returnedNormally
    ∧ (mainLoopStep4 ⟨false, false, true⟩).2 = some 0
    ∧ (mainLoopStep4 ⟨false, false, true⟩).1.filter isSleepEvent = [] := by
  refine ⟨by decide, by decide, by decide⟩

/-- C9 amended: a frame-source open failure after connecting and
registering makes start_server log an error and return normally, and
the supervisor loop restarts it immediately with no delay; the fixed
5-second delay is applied only to attempts that end by raising (such as
a connect or register failure). -/
theorem C9_amended (env : StartEnv) :
    (env.connectFails = false → env.registerFails = false →
      env.cameraFails = true →
      (start_server4 env).1 = .returnedNormally
      ∧ Event.log .error "failed_to_open_camera" ∈ (mainLoopStep4 env).1
      ∧ (mainLoopStep4 env).2 = some 0
      ∧ (mainLoopStep4 env).1.filter isSleepEvent = [])
    ∧ ((start_server4 env).1 = .raised →
      (mainLoopStep4 env).2 = some 5000
      ∧ Event.sleepMs 5000 ∈ (mainLoopStep4 env).1) := by
  obtain ⟨cf, rf, caf⟩ := env
  cases cf <;> cases rf <;> cases caf <;>
    simp_all [start_server4, mainLoopStep4, isSleepEvent]

/-- C9 witness: the camera-failure attempt restarts with zero delay; a
connect-failure attempt restarts after the 5-second sleep. -/
theorem C9_witness :
    ((start_server4 ⟨false, false, true⟩).1 = .returnedNormally
      ∧ Event.log .error "failed_to_open_camera" ∈ (mainLoopStep4 ⟨false, false, true⟩).1
      ∧ (mainLoopStep4 ⟨false, false, true⟩).2 = some 0
      ∧ (mainLoopStep4 ⟨false, false, true⟩).1.filter isSleepEvent = [])
    ∧ ((mainLoopStep4 ⟨true, false, false⟩).2 = some 5000
      ∧ Event.sleepMs 5000 ∈ (mainLoopStep4 ⟨true, false, false⟩).1) :=
  ⟨(C9_amended ⟨false, false, true⟩).1 (by decide) (by decide) (by decide),
    (C9_amended ⟨true, false, false⟩).2 (by decide)⟩

end StreamServer
